import Mathlib

/-!
Verification of the overlay layout engine of the `ez` repository
(`src/page_processor.py` and `src/arabic_handler.py`).

Coordinates are modelled as rationals (the Python code computes with
floats on small decimal constants; every constant appearing here — 5, 10,
4, 14, 0.6 = 3/5, 1.5 = 3/2 — is exactly representable, and the claims
under study are order/geometry facts).  The `while` loop of
`_find_optimal_position` is modelled with explicit fuel: `find_pos_aux
fuel x y = some p` means the Python loop, started at candidate `(x, y)`,
exits with position `p` after at most `fuel` iterations; `none` means it
is still running after `fuel` iterations.  External collaborators (the
`arabic_reshaper`/`bidi` libraries, the reportlab canvas) are passed in as
parameters: a failing call is a parameter returning `none` (a raised
exception), mirroring the `try`/`except` structure of the source.
-/

/-- A text-block bounding box `(x0, y0, x1, y1)` in page coordinates
(y grows downward from the top), as the 4-tuples `block['bbox']` /
`block['original_bbox']` of the source. -/
structure Bbox where
  x0 : ℚ
  y0 : ℚ
  x1 : ℚ
  y1 : ℚ
deriving DecidableEq

/-- A placed rectangle `(x, y, width, height)` in canvas coordinates
(y grows upward from the bottom): one entry of the `used_positions` list
of `create_translated_overlay`. -/
structure PRect where
  x : ℚ
  y : ℚ
  w : ℚ
  h : ℚ
deriving DecidableEq

/-- `ArabicHandler.font_size` (src/arabic_handler.py line 17). -/
def font_size : ℚ := 14

/-- `ArabicHandler.process_text` (src/arabic_handler.py lines 50-58):
`reshape` models `arabic_reshaper.reshape` and `gd` models
`bidi.algorithm.get_display`; `none` is a raised exception.  The
surrounding `try`/`except` returns the original `text` whenever either
step raises. -/
def process_text (reshape gd : String → Option String) (text : String) : String :=
  match reshape text with
  | none => text
  | some r =>
    match gd r with
    | none => text
    | some b => b

/-- `ArabicHandler.get_text_dimensions` (src/arabic_handler.py lines
60-69): `width = len(processed_text) * font_size * 0.6`,
`height = font_size * 1.5`. -/
def get_text_dimensions (reshape gd : String → Option String) (text : String) : ℚ × ℚ :=
  (((process_text reshape gd text).length : ℚ) * font_size * (3 / 5), font_size * (3 / 2))

/-- The body of the loop of `PageProcessor._check_overlap`
(src/page_processor.py lines 196-197): two rectangles overlap iff both
their x-ranges and their y-ranges strictly intersect. -/
def rects_overlap (a b : PRect) : Bool :=
  decide (a.x < b.x + b.w) && decide (a.x + a.w > b.x) &&
    decide (a.y < b.y + b.h) && decide (a.y + a.h > b.y)

/-- `PageProcessor._check_overlap` (src/page_processor.py lines 192-199):
true iff `current` overlaps some member of `used_positions`. -/
def check_overlap (current : PRect) (used_positions : List PRect) : Bool :=
  used_positions.any fun u => rects_overlap current u

/-- The `while` loop of `PageProcessor._find_optimal_position`
(src/page_processor.py lines 182-188), with explicit fuel: at each
iteration, while the candidate overlaps a used position, `y` decreases by
`text_height + 5`; when the new `y` drops below 5, `y` is reset to
`page_height - text_height - 5` and `x` advances by `text_width + 10`,
and when `x + text_width` then exceeds `page_width - 5`, `x` is reset
to 5.  `some p` = the Python loop exits with `p` within `fuel`
iterations; `none` = the loop is still running after `fuel` iterations. -/
def find_pos_aux (tw th pw ph : ℚ) (used : List PRect) : ℕ → ℚ → ℚ → Option (ℚ × ℚ)
  | 0, x, y => if check_overlap ⟨x, y, tw, th⟩ used then none else some (x, y)
  | n + 1, x, y =>
    if check_overlap ⟨x, y, tw, th⟩ used then
      let y2 := y - (th + 5)
      if y2 < 5 then
        let y3 := ph - th - 5
        let x2 := x + tw + 10
        if x2 + tw > pw - 5 then find_pos_aux tw th pw ph used n 5 y3
        else find_pos_aux tw th pw ph used n x2 y3
      else find_pos_aux tw th pw ph used n x y2
    else some (x, y)

/-- One iteration of the overlap-resolution loop of
`_find_optimal_position` (src/page_processor.py lines 183-188), as a
state transformer on the candidate `(x, y)`. -/
def loop_step (tw th pw ph : ℚ) (x y : ℚ) : ℚ × ℚ :=
  let y2 := y - (th + 5)
  if y2 < 5 then
    let x2 := x + tw + 10
    if x2 + tw > pw - 5 then (5, ph - th - 5) else (x2, ph - th - 5)
  else (x, y2)

/-- Modelled from the spec, for comparison with `loop_step` (which is the
source's step): the loop iteration as the specification's sentence reads
literally — "advance x rightward by textWidth + 10. If the advanced x
would exceed pageWidth - 5, reset x to the left margin (5)", i.e. the
reset condition compares the advanced `x` itself (not the advanced
rectangle's right edge `x + textWidth`) against `pageWidth - 5`. -/
def loop_step_spec (tw th pw ph : ℚ) (x y : ℚ) : ℚ × ℚ :=
  let y2 := y - (th + 5)
  if y2 < 5 then
    let x2 := x + tw + 10
    if x2 > pw - 5 then (5, ph - th - 5) else (x2, ph - th - 5)
  else (x, y2)

/-- `PageProcessor._find_optimal_position` (src/page_processor.py lines
173-190): start at `x = bbox[0]`, `y = page_height - bbox[3] -
text_height - 5`, clamp with `x = max(5, min(x, page_width - text_width -
5))` and `y = max(5, min(y, page_height - text_height - 5))`, then run
the overlap-resolution loop (`find_pos_aux`, with fuel). -/
def find_optimal_position (fuel : ℕ) (bbox : Bbox) (text_width text_height : ℚ)
    (used_positions : List PRect) (page_width page_height : ℚ) : Option (ℚ × ℚ) :=
  let x := bbox.x0
  let y := page_height - bbox.y1 - text_height - 5
  let x2 := max 5 (min x (page_width - text_width - 5))
  let y2 := max 5 (min y (page_height - text_height - 5))
  find_pos_aux text_width text_height page_width page_height used_positions fuel x2 y2

/-- One element of the `translated_blocks` list consumed by
`create_translated_overlay`: a Python dict whose fields may be absent
(`none`; reading an absent field with `[]` raises `KeyError`, which the
per-block `except` swallows).  `draw_ok` stands for the external canvas:
whether the two drawing calls for this block (`_draw_text_block`,
`_draw_connection_line`) return without raising. -/
structure OverlayBlock where
  btype : Option String
  text : Option String
  original_bbox : Option Bbox
  draw_ok : Bool
deriving DecidableEq

/-- The per-page `used_positions` list built by the block loop of
`PageProcessor.create_translated_overlay` (src/page_processor.py lines
68-96): blocks whose `type` is not `text`, whose text is missing or
empty, or whose processing raises (missing `original_bbox`, a failed
drawing call) are skipped and contribute no rectangle; each remaining
block is measured with `get_text_dimensions`, placed with
`find_optimal_position` against the rectangles recorded so far, and its
rectangle `(x, y, text_width, text_height)` is appended.  `none` = some
block's placement loop exceeded `fuel` iterations (the Python pass never
finishes). -/
def build_used_positions (reshape gd : String → Option String) (pw ph : ℚ) (fuel : ℕ) :
    List OverlayBlock → List PRect → Option (List PRect)
  | [], used => some used
  | b :: bs, used =>
    match b.btype, b.text with
    | some bt, some t =>
      if bt ≠ (r"text") then build_used_positions reshape gd pw ph fuel bs used
      else if t = (r"") then build_used_positions reshape gd pw ph fuel bs used
      else
        match b.original_bbox with
        | none => build_used_positions reshape gd pw ph fuel bs used
        | some bbox =>
          let dims := get_text_dimensions reshape gd t
          match find_optimal_position fuel bbox dims.1 dims.2 used pw ph with
          | none => none
          | some p =>
            if b.draw_ok then
              build_used_positions reshape gd pw ph fuel bs (used ++ [⟨p.1, p.2, dims.1, dims.2⟩])
            else build_used_positions reshape gd pw ph fuel bs used
    | _, _ => build_used_positions reshape gd pw ph fuel bs used

/-- An element of the `page_size` tuple handed to
`create_translated_overlay`: either a value `float()` converts (a
number), or one on which `float()` raises. -/
inductive PyVal where
  | num (q : ℚ)
  | nonNumeric
deriving DecidableEq

/-- Python `float(v)`: `none` = `float` raises. -/
def py_float : PyVal → Option ℚ
  | .num q => some q
  | .nonNumeric => none

/-- The Python exception `create_translated_overlay` can let escape. -/
inductive PyErr where
  | nameError
deriving DecidableEq

/-- The rendered per-page surface: its dimensions and the rectangles of
the blocks drawn onto it (empty for `_create_empty_page`). -/
structure PageSurface where
  width : ℚ
  height : ℚ
  drawn : List PRect
deriving DecidableEq

/-- `PageProcessor._create_empty_page` (src/page_processor.py lines
201-207): a blank canvas of the given dimensions. -/
def create_empty_page (w h : ℚ) : PageSurface := ⟨w, h, []⟩

/-- `PageProcessor.create_translated_overlay` (src/page_processor.py
lines 62-104), control flow of the outer `try`/`except`.  The body first
runs `width, height = float(page_size[0]), float(page_size[1])`: if
either conversion raises, the tuple assignment never happens, `width` and
`height` stay unbound, and the `except` handler's own call
`self._create_empty_page(width, height)` raises `NameError`
(UnboundLocalError) — the function raises instead of returning.  After a
successful binding, `canvas_ok` stands for `canvas.Canvas(...)`
returning without raising (if not, the handler returns an empty page of
the bound dimensions), the block loop builds `used_positions`
(`build_used_positions`; `none` = a placement loop never exits, the pass
hangs), and `save_ok` stands for `c.save()`/`packet.seek(0)` succeeding
(if not, the handler again returns an empty page). -/
def create_translated_overlay (reshape gd : String → Option String) (fuel : ℕ)
    (translated_blocks : List OverlayBlock) (ps1 ps2 : PyVal) (canvas_ok save_ok : Bool) :
    Option (Except PyErr PageSurface) :=
  match py_float ps1, py_float ps2 with
  | some w, some h =>
    if canvas_ok then
      match build_used_positions reshape gd w h fuel translated_blocks [] with
      | none => none
      | some used =>
        some (if save_ok then Except.ok ⟨w, h, used⟩ else Except.ok (create_empty_page w h))
    else some (Except.ok (create_empty_page w h))
  | _, _ => some (Except.error PyErr.nameError)

/-- Python `str.strip()` (no argument): drop whitespace characters from
both ends of the string. -/
def py_strip (s : String) : String :=
  ⟨((s.data.dropWhile Char.isWhitespace).reverse.dropWhile Char.isWhitespace).reverse⟩

/-- Python `str.isdigit` restricted to the ASCII digit strings this data
carries: true iff the string is nonempty and every character is a
digit. -/
def py_isdigit (s : String) : Bool :=
  (s != (r"")) && s.data.all Char.isDigit

/-- `PageProcessor._should_process_block` (src/page_processor.py lines
106-118): reject a missing or empty (falsy) text, then reject when the
stripped text has length < 3 or is all digits. -/
def should_process_block (text : Option String) : Bool :=
  match text with
  | none => false
  | some s =>
    if s = (r"") then false
    else
      let t := py_strip s
      if t.length < 3 || py_isdigit t then false else true

/-- A raw page block handed to `process_page`: a dict with optional
`text` and `bbox` entries (`block.get` supplies the defaults). -/
structure SrcBlock where
  text : Option String
  bbox : Option Bbox
deriving DecidableEq

/-- The default `(0, 0, 0, 0)` used by `block.get('bbox', (0,0,0,0))`. -/
def default_bbox : Bbox := ⟨0, 0, 0, 0⟩

/-- The strict order on the sort keys `(-bbox[1], bbox[0])` of
`process_page`'s `sorted` call (src/page_processor.py lines 35-38):
`a` strictly precedes `b` iff `-a.y0 < -b.y0`, or the first components
tie and `a.x0 < b.x0`. -/
def block_key_lt (a b : SrcBlock) : Bool :=
  let ab := a.bbox.getD default_bbox
  let bb := b.bbox.getD default_bbox
  decide (bb.y0 < ab.y0) || (decide (ab.y0 = bb.y0) && decide (ab.x0 < bb.x0))

/-- Stable insertion into a sorted list: the new element goes in front of
the first element it does not strictly follow. -/
def insert_sorted (a : SrcBlock) : List SrcBlock → List SrcBlock
  | [] => [a]
  | b :: bs => if block_key_lt b a then b :: insert_sorted a bs else a :: b :: bs

/-- Python's stable `sorted(page_content, key=lambda x: (-bbox[1],
bbox[0]))` (src/page_processor.py lines 35-38), modelled as stable
insertion sort on the same key order. -/
def sort_blocks : List SrcBlock → List SrcBlock
  | [] => []
  | a :: rest => insert_sorted a (sort_blocks rest)

/-- `PageProcessor.batch_size` (src/page_processor.py line 18). -/
def batch_size : ℕ := 10

/-- The batching loop of `process_page` (src/page_processor.py lines
40-54): texts accumulate into `batch`; once `batch` reaches
`batch_size` it is flushed as one translator call, and a nonempty final
batch is flushed at the end. -/
def batch_loop : List String → List String → List (List String)
  | [], batch => if batch = [] then [] else [batch]
  | t :: ts, batch =>
    let batch2 := batch ++ [t]
    if batch_size ≤ batch2.length then batch2 :: batch_loop ts [] else batch_loop ts batch2

/-- The lengths `batch_loop` produces, as a function of how many texts
remain and how many are already in the open batch. -/
def batch_sizes : ℕ → ℕ → List ℕ
  | 0, a => if a = 0 then [] else [a]
  | n + 1, a => if batch_size ≤ a + 1 then (a + 1) :: batch_sizes n 0 else batch_sizes n (a + 1)

/-- The texts of the eligible blocks of a page in processed order: the
content sorted by `(-bbox[1], bbox[0])`, filtered by
`_should_process_block`, each contributing `block.get('text', '')`
(src/page_processor.py lines 40-45). -/
def eligible_texts (page_content : List SrcBlock) : List String :=
  (sort_blocks page_content).filterMap fun b =>
    if should_process_block b.text then some (b.text.getD (r"")) else none

/-- The sequence of calls `process_page` makes to
`text_processor.process_text_batch` (one per `_process_batch`
invocation), each with its list of texts, in order. -/
def translator_calls (page_content : List SrcBlock) : List (List String) :=
  batch_loop (eligible_texts page_content) []

/-- The translated-block dict `_process_batch` builds
(src/page_processor.py lines 127-134). -/
structure TransBlock where
  text : String
  original_text : String
  bbox : Bbox
  original_bbox : Bbox
  btype : String
  page : ℕ
deriving DecidableEq

/-- One dict of the `translated_block` shape built at
src/page_processor.py lines 127-134. -/
def mk_translated_block (trans : String) (block : SrcBlock) (page_num : ℕ) : TransBlock :=
  ⟨trans, block.text.getD (r""), block.bbox.getD default_bbox,
    block.bbox.getD default_bbox, (r"text"), page_num⟩

/-- `PageProcessor._process_batch` (src/page_processor.py lines 120-138),
given the list `translations` returned by the translator: `zip` pairs
translations with blocks positionally (truncating at the shorter), and a
pair is kept only when its translation is truthy and has nonempty
trimmed text.  Returns the `TransBlock`s appended by this batch. -/
def process_batch (translations : List String) (blocks : List SrcBlock) (page_num : ℕ) :
    List TransBlock :=
  (translations.zip blocks).filterMap fun p =>
    if p.1 ≠ (r"") ∧ py_strip p.1 ≠ (r"") then some (mk_translated_block p.1 p.2 page_num)
    else none

/-- A shaping stub for witnesses: succeeds exactly on the empty string,
returning it. -/
def shape_id (s : String) : Option String :=
  if s = (r"") then some (r"") else none

/-- A concrete overlay block for witnesses. -/
def c1_block : OverlayBlock :=
  ⟨some (r"text"), some (r"abcde"), some ⟨10, 700, 60, 720⟩, true⟩

/-- A concrete page content of 25 eligible blocks for witnesses. -/
def c7_content : List SrcBlock :=
  List.replicate 25 ⟨some (r"abcde"), some default_bbox⟩

/-- A position returned by the overlap-resolution loop overlaps no
already-used position: the loop only exits on a candidate for which
`_check_overlap` is false. -/
theorem find_pos_aux_free (tw th pw ph : ℚ) (used : List PRect) :
    ∀ (fuel : ℕ) (x y : ℚ) (p : ℚ × ℚ),
      find_pos_aux tw th pw ph used fuel x y = some p →
      check_overlap ⟨p.1, p.2, tw, th⟩ used = false := by
  intro fuel
  induction fuel with
  | zero =>
    intro x y p h
    simp only [find_pos_aux] at h
    split at h
    · exact Option.noConfusion h
    next hc =>
      injection h with h2
      subst h2
      simpa using hc
  | succ n ih =>
    intro x y p h
    simp only [find_pos_aux] at h
    split at h
    · split at h
      · split at h
        · exact ih _ _ _ h
        · exact ih _ _ _ h
      · exact ih _ _ _ h
    next hc =>
      injection h with h2
      subst h2
      simpa using hc

/-- `_check_overlap` is false exactly when the candidate overlaps no
member of the used list. -/
theorem check_overlap_eq_false_iff (c : PRect) (used : List PRect) :
    check_overlap c used = false ↔ ∀ u ∈ used, rects_overlap c u = false := by
  simp [check_overlap, List.any_eq_false]

/-- The open-rectangle intersection test is symmetric. -/
theorem rects_overlap_comm (a b : PRect) : rects_overlap a b = rects_overlap b a := by
  have h : ∀ u v : PRect, rects_overlap u v = true → rects_overlap v u = true := by
    intro u v huv
    simp only [rects_overlap, Bool.and_eq_true, decide_eq_true_eq] at huv ⊢
    tauto
  cases hab : rects_overlap a b with
  | true => exact (h a b hab).symm
  | false =>
    cases hba : rects_overlap b a with
    | false => rfl
    | true => exact absurd (h b a hba) (by simp [hab])

/-- A position returned by `_find_optimal_position` overlaps no
already-used position. -/
theorem find_optimal_position_free (fuel : ℕ) (bbox : Bbox) (tw th : ℚ)
    (used : List PRect) (pw ph : ℚ) (p : ℚ × ℚ)
    (h : find_optimal_position fuel bbox tw th used pw ph = some p) :
    check_overlap ⟨p.1, p.2, tw, th⟩ used = false := by
  simp only [find_optimal_position] at h
  exact find_pos_aux_free tw th pw ph used fuel _ _ p h

/-- Unfolding `build_used_positions` on a block with no `type` entry:
`block['type']` raises `KeyError`, the block is skipped. -/
theorem build_used_positions_none_btype (reshape gd : String → Option String) (pw ph : ℚ)
    (fuel : ℕ) (t : Option String) (obb : Option Bbox) (dok : Bool)
    (bs : List OverlayBlock) (used : List PRect) :
    build_used_positions reshape gd pw ph fuel (⟨none, t, obb, dok⟩ :: bs) used =
      build_used_positions reshape gd pw ph fuel bs used := rfl

/-- Unfolding `build_used_positions` on a block with no text:
`block.get('text')` is falsy, the block is skipped. -/
theorem build_used_positions_none_text (reshape gd : String → Option String) (pw ph : ℚ)
    (fuel : ℕ) (bt : String) (obb : Option Bbox) (dok : Bool)
    (bs : List OverlayBlock) (used : List PRect) :
    build_used_positions reshape gd pw ph fuel (⟨some bt, none, obb, dok⟩ :: bs) used =
      build_used_positions reshape gd pw ph fuel bs used := rfl

/-- Unfolding `build_used_positions` on a block carrying a type and a
text but no `original_bbox` entry (reading it raises `KeyError`; every
branch skips). -/
theorem build_used_positions_cons_no_bbox (reshape gd : String → Option String) (pw ph : ℚ)
    (fuel : ℕ) (bt t : String) (dok : Bool)
    (bs : List OverlayBlock) (used : List PRect) :
    build_used_positions reshape gd pw ph fuel (⟨some bt, some t, none, dok⟩ :: bs) used =
      (if bt ≠ (r"text") then build_used_positions reshape gd pw ph fuel bs used
      else if t = (r"") then build_used_positions reshape gd pw ph fuel bs used
      else build_used_positions reshape gd pw ph fuel bs used) := rfl

/-- Unfolding `build_used_positions` on a block carrying a type, a text
and an original bbox. -/
theorem build_used_positions_cons_bbox (reshape gd : String → Option String) (pw ph : ℚ)
    (fuel : ℕ) (bt t : String) (bbox : Bbox) (dok : Bool)
    (bs : List OverlayBlock) (used : List PRect) :
    build_used_positions reshape gd pw ph fuel (⟨some bt, some t, some bbox, dok⟩ :: bs) used =
      (if bt ≠ (r"text") then build_used_positions reshape gd pw ph fuel bs used
      else if t = (r"") then build_used_positions reshape gd pw ph fuel bs used
      else
        match find_optimal_position fuel bbox (get_text_dimensions reshape gd t).1
            (get_text_dimensions reshape gd t).2 used pw ph with
        | none => none
        | some p =>
          if dok then
            build_used_positions reshape gd pw ph fuel bs
              (used ++ [⟨p.1, p.2, (get_text_dimensions reshape gd t).1,
                (get_text_dimensions reshape gd t).2⟩])
          else build_used_positions reshape gd pw ph fuel bs used) := rfl

/-- Invariant of the overlay block loop: if the rectangles accumulated so
far are pairwise non-overlapping, so is any completed used-positions
list grown from them. -/
theorem build_used_positions_pairwise (reshape gd : String → Option String) (pw ph : ℚ)
    (fuel : ℕ) :
    ∀ (blocks : List OverlayBlock) (acc used : List PRect),
      acc.Pairwise (fun a b => rects_overlap a b = false) →
      build_used_positions reshape gd pw ph fuel blocks acc = some used →
      used.Pairwise (fun a b => rects_overlap a b = false) := by
  intro blocks
  induction blocks with
  | nil =>
    intro acc used hp h
    simp only [build_used_positions] at h
    injection h with h2
    subst h2
    exact hp
  | cons b bs ih =>
    intro acc used hp h
    obtain ⟨bt, t, obb, dok⟩ := b
    cases bt with
    | none =>
      rw [build_used_positions_none_btype] at h
      exact ih acc used hp h
    | some bt =>
      cases t with
      | none =>
        rw [build_used_positions_none_text] at h
        exact ih acc used hp h
      | some t =>
        cases obb with
        | none =>
          rw [build_used_positions_cons_no_bbox] at h
          split at h
          · exact ih acc used hp h
          · split at h
            · exact ih acc used hp h
            · exact ih acc used hp h
        | some bbox =>
          rw [build_used_positions_cons_bbox] at h
          by_cases hbt : bt = (r"text")
          · rw [if_neg (fun hne => hne hbt)] at h
            by_cases ht : t = (r"")
            · rw [if_pos ht] at h
              exact ih acc used hp h
            · rw [if_neg ht] at h
              cases hf : find_optimal_position fuel bbox
                  (get_text_dimensions reshape gd t).1 (get_text_dimensions reshape gd t).2
                  acc pw ph with
              | none => rw [hf] at h; exact Option.noConfusion h
              | some p =>
                rw [hf] at h
                cases dok with
                | false => exact ih acc used hp h
                | true =>
                  refine ih _ used ?_ h
                  rw [List.pairwise_append]
                  refine ⟨hp, by simp, ?_⟩
                  intro a ha c hc
                  simp only [List.mem_singleton] at hc
                  subst hc
                  have hfree := find_optimal_position_free fuel bbox _ _ acc pw ph p hf
                  rw [check_overlap_eq_false_iff] at hfree
                  rw [← rects_overlap_comm]
                  exact hfree a ha
          · rw [if_pos hbt] at h
            exact ih acc used hp h

/-- Bounds invariant of the overlap-resolution loop: with nonnegative
text dimensions and a page at least 10 units larger than the text in
each dimension, the loop keeps — and therefore returns — candidates
inside the 5-unit margins. -/
theorem find_pos_aux_bounds (tw th pw ph : ℚ) (used : List PRect)
    (htw : 0 ≤ tw) (hth : 0 ≤ th) (hpw : tw + 10 ≤ pw) (hph : th + 10 ≤ ph) :
    ∀ (fuel : ℕ) (x y : ℚ) (p : ℚ × ℚ),
      5 ≤ x → x ≤ pw - tw - 5 → 5 ≤ y → y ≤ ph - th - 5 →
      find_pos_aux tw th pw ph used fuel x y = some p →
      5 ≤ p.1 ∧ p.1 ≤ pw - tw - 5 ∧ 5 ≤ p.2 ∧ p.2 ≤ ph - th - 5 := by
  intro fuel
  induction fuel with
  | zero =>
    intro x y p h1 h2 h3 h4 h
    simp only [find_pos_aux] at h
    split at h
    · exact Option.noConfusion h
    · injection h with h5
      subst h5
      exact ⟨h1, h2, h3, h4⟩
  | succ n ih =>
    intro x y p h1 h2 h3 h4 h
    simp only [find_pos_aux] at h
    split at h
    · split at h
      · split at h
        next hx =>
          exact ih 5 (ph - th - 5) p le_rfl (by linarith) (by linarith) le_rfl h
        next hx =>
          push_neg at hx
          exact ih (x + tw + 10) (ph - th - 5) p (by linarith) (by linarith) (by linarith)
            le_rfl h
      next hy =>
        push_neg at hy
        exact ih x (y - (th + 5)) p h1 h2 (by linarith) (by linarith) h
    · injection h with h5
      subst h5
      exact ⟨h1, h2, h3, h4⟩

/-- Every candidate inside the margins of the 100x100 page overlaps the
huge rectangle used in the C3 counterexample. -/
theorem c3_always_overlaps (x y : ℚ) (h1 : 5 ≤ x) (h2 : x ≤ 85) (h3 : 5 ≤ y) (h4 : y ≤ 85) :
    check_overlap ⟨x, y, 10, 10⟩ [⟨-10000, -10000, 20200, 20200⟩] = true := by
  simp only [check_overlap, List.any_cons, List.any_nil, Bool.or_false, rects_overlap,
    Bool.and_eq_true, decide_eq_true_eq]
  refine ⟨⟨⟨by linarith, by linarith⟩, by linarith⟩, by linarith⟩

/-- Started anywhere inside the margins, the overlap-resolution loop
against the huge rectangle runs forever: every iteration keeps the
candidate inside the margins and every such candidate overlaps. -/
theorem c3_stuck_aux :
    ∀ (fuel : ℕ) (x y : ℚ), 5 ≤ x → x ≤ 85 → 5 ≤ y → y ≤ 85 →
      find_pos_aux 10 10 100 100 [⟨-10000, -10000, 20200, 20200⟩] fuel x y = none := by
  intro fuel
  induction fuel with
  | zero =>
    intro x y h1 h2 h3 h4
    simp [find_pos_aux, c3_always_overlaps x y h1 h2 h3 h4]
  | succ n ih =>
    intro x y h1 h2 h3 h4
    simp only [find_pos_aux, c3_always_overlaps x y h1 h2 h3 h4, if_true]
    split
    next hy =>
      split
      next hx =>
        exact ih 5 (100 - 10 - 5) (by norm_num) (by norm_num) (by norm_num) (by norm_num)
      next hx =>
        push_neg at hx
        exact ih (x + 10 + 10) (100 - 10 - 5) (by linarith) (by linarith) (by norm_num)
          (by norm_num)
    next hy =>
      push_neg at hy
      exact ih x (y - (10 + 5)) h1 h2 (by linarith) (by linarith)

/-- Flattening the batches gives back the batched texts in order, after
whatever was already in the open batch. -/
theorem batch_loop_flatten : ∀ (ts batch : List String),
    (batch_loop ts batch).flatten = batch ++ ts := by
  intro ts
  induction ts with
  | nil =>
    intro batch
    simp only [batch_loop]
    split
    next h => simp [h]
    next h => simp
  | cons t ts ih =>
    intro batch
    simp only [batch_loop]
    split
    · rw [List.flatten_cons, ih]
      simp
    · rw [ih]
      simp

/-- The batch lengths depend only on how many texts remain and how many
already sit in the open batch. -/
theorem batch_loop_sizes : ∀ (ts batch : List String),
    (batch_loop ts batch).map List.length = batch_sizes ts.length batch.length := by
  intro ts
  induction ts with
  | nil =>
    intro batch
    simp only [batch_loop, batch_sizes]
    split
    next h => simp [h]
    next h =>
      rw [if_neg]
      · simp
      · simpa using h
  | cons t ts ih =>
    intro batch
    simp only [batch_loop, batch_sizes, List.length_cons]
    split
    next h =>
      rw [if_pos]
      · simp [ih]
      · simpa using h
    next h =>
      rw [if_neg]
      · rw [ih]
        simp
      · simpa using h

/-- `zip` only consumes the prefix of its second list matching the first
list's length. -/
theorem zip_eq_zip_take {α β : Type} : ∀ (l1 : List α) (l2 : List β),
    l1.zip l2 = l1.zip (l2.take l1.length) := by
  intro l1
  induction l1 with
  | nil => intro l2; simp
  | cons a l ih =>
    intro l2
    cases l2 with
    | nil => simp
    | cons b l2 =>
      simp only [List.zip_cons_cons, List.length_cons, List.take_succ_cons]
      rw [← ih]

/-- C1: for every page, the used-positions list recorded by
`create_translated_overlay`'s overlay pass (one rectangle per rendered
block) contains no two rectangles that overlap under the open-rectangle
intersection test of `_check_overlap`: whenever the pass completes with
list `used`, `used` is pairwise non-overlapping, for every shaping
behaviour, page size, fuel bound and block list. -/
theorem c1_no_two_placed_rects_overlap (reshape gd : String → Option String) (pw ph : ℚ)
    (fuel : ℕ) (blocks : List OverlayBlock) (used : List PRect)
    (h : build_used_positions reshape gd pw ph fuel blocks [] = some used) :
    used.Pairwise (fun a b => rects_overlap a b = false) :=
  build_used_positions_pairwise reshape gd pw ph fuel blocks [] used List.Pairwise.nil h

/-- Witness for C1: two identical blocks on a 612x792 page; the pass
places them at (10, 46) and (10, 20) and the recorded rectangles are
pairwise non-overlapping. -/
theorem c1_no_two_placed_rects_overlap_witness :
    build_used_positions (fun s => some s) (fun s => some s) 612 792 1 [c1_block, c1_block] []
        = some [⟨10, 46, 42, 21⟩, ⟨10, 20, 42, 21⟩] ∧
      List.Pairwise (fun a b => rects_overlap a b = false)
        [(⟨10, 46, 42, 21⟩ : PRect), ⟨10, 20, 42, 21⟩] := by
  have hlen : ((r"abcde") : String).length = 5 := rfl
  have hne : (((r"abcde") : String) = (r"")) = False := by simp
  have hev : build_used_positions (fun s => some s) (fun s => some s) 612 792 1
      [c1_block, c1_block] [] = some [⟨10, 46, 42, 21⟩, ⟨10, 20, 42, 21⟩] := by
    norm_num [build_used_positions, c1_block, get_text_dimensions, process_text, font_size,
      find_optimal_position, find_pos_aux, check_overlap, rects_overlap, hlen, hne]
  exact ⟨hev, c1_no_two_placed_rects_overlap (fun s => some s) (fun s => some s) 612 792 1
    [c1_block, c1_block] [⟨10, 46, 42, 21⟩, ⟨10, 20, 42, 21⟩] hev⟩

/-- C2 counterexample: with `page_width = page_height = 10` and
`text_width = text_height = 10` (page smaller than the text plus
margins), the placement algorithm still returns a position — the clamped
start `(5, 5)` — and that rectangle violates
`x ≤ pageWidth - width - 5`, so the margin invariant does not hold for
every bbox, text size and page size as the claim states. -/
theorem c2_margin_counterexample :
    find_optimal_position 0 ⟨0, 0, 0, 0⟩ 10 10 [] 10 10 = some (5, 5) ∧
      ¬ ((5 : ℚ) ≤ 10 - 10 - 5) := by
  constructor
  · norm_num [find_optimal_position, find_pos_aux, check_overlap]
  · norm_num

/-- C2 (amended): whenever the text dimensions are nonnegative and the
page exceeds the text by at least 10 units in each dimension (so the
margin box can hold the text at all), every position returned by
`_find_optimal_position` satisfies `5 ≤ x ≤ pageWidth - width - 5` and
`5 ≤ y ≤ pageHeight - height - 5`, for every original bbox and every
list of previously placed rectangles. -/
theorem c2_placed_rect_within_margins (fuel : ℕ) (bbox : Bbox) (tw th : ℚ)
    (used : List PRect) (pw ph : ℚ) (p : ℚ × ℚ)
    (htw : 0 ≤ tw) (hth : 0 ≤ th) (hpw : tw + 10 ≤ pw) (hph : th + 10 ≤ ph)
    (h : find_optimal_position fuel bbox tw th used pw ph = some p) :
    5 ≤ p.1 ∧ p.1 ≤ pw - tw - 5 ∧ 5 ≤ p.2 ∧ p.2 ≤ ph - th - 5 := by
  simp only [find_optimal_position] at h
  refine find_pos_aux_bounds tw th pw ph used htw hth hpw hph fuel _ _ p ?_ ?_ ?_ ?_ h
  · exact le_max_left _ _
  · exact max_le (by linarith) (min_le_right _ _)
  · exact le_max_left _ _
  · exact max_le (by linarith) (min_le_right _ _)

/-- Witness for C2 (amended): a 42x21 text on a 612x792 page is placed
at (10, 46), inside all four margin bounds. -/
theorem c2_placed_rect_within_margins_witness :
    (0 : ℚ) ≤ 42 ∧ (0 : ℚ) ≤ 21 ∧ (42 : ℚ) + 10 ≤ 612 ∧ (21 : ℚ) + 10 ≤ 792 ∧
      find_optimal_position 0 ⟨10, 700, 60, 720⟩ 42 21 [] 612 792 = some (10, 46) ∧
      (5 ≤ ((10, 46) : ℚ × ℚ).1 ∧ ((10, 46) : ℚ × ℚ).1 ≤ 612 - 42 - 5 ∧
        5 ≤ ((10, 46) : ℚ × ℚ).2 ∧ ((10, 46) : ℚ × ℚ).2 ≤ 792 - 21 - 5) := by
  have hev : find_optimal_position 0 ⟨10, 700, 60, 720⟩ 42 21 [] 612 792 = some (10, 46) := by
    norm_num [find_optimal_position, find_pos_aux, check_overlap]
  refine ⟨by norm_num, by norm_num, by norm_num, by norm_num, hev, ?_⟩
  exact c2_placed_rect_within_margins 0 ⟨10, 700, 60, 720⟩ 42 21 [] 612 792 (10, 46)
    (by norm_num) (by norm_num) (by norm_num) (by norm_num) hev

/-- C3 counterexample: an input on which the placement search never
returns.  With a single already-placed rectangle covering far more than
the whole 100x100 page, every candidate the loop can reach overlaps it,
so for no iteration bound does the loop exit: the search does not
terminate for every input. -/
theorem c3_nontermination_counterexample :
    ¬ ∃ (fuel : ℕ) (p : ℚ × ℚ),
        find_optimal_position fuel ⟨0, 0, 0, 0⟩ 10 10
          [⟨-10000, -10000, 20200, 20200⟩] 100 100 = some p := by
  rintro ⟨fuel, p, h⟩
  have h0 : find_optimal_position fuel ⟨0, 0, 0, 0⟩ 10 10
      [⟨-10000, -10000, 20200, 20200⟩] 100 100 = none := by
    simp only [find_optimal_position]
    have hx : max (5 : ℚ) (min ((0 : ℚ)) (100 - 10 - 5)) = 5 := by norm_num
    have hy : max (5 : ℚ) (min ((100 : ℚ) - 0 - 10 - 5) (100 - 10 - 5)) = 85 := by norm_num
    rw [hx, hy]
    exact c3_stuck_aux fuel 5 85 le_rfl (by norm_num) (by norm_num) (by norm_num)
  rw [h0] at h
  exact Option.noConfusion h

/-- C3 (amended): the placement search does not terminate on every input
(see the counterexample), but it does terminate whenever no rectangle
has yet been placed on the page: with an empty placed list the loop
exits at once, returning the clamped starting candidate, whatever the
bbox, text size and page size. -/
theorem c3_terminates_on_empty_used (fuel : ℕ) (bbox : Bbox) (tw th pw ph : ℚ) :
    find_optimal_position fuel bbox tw th [] pw ph =
      some (max 5 (min bbox.x0 (pw - tw - 5)),
        max 5 (min (ph - bbox.y1 - th - 5) (ph - th - 5))) := by
  cases fuel <;> simp [find_optimal_position, find_pos_aux, check_overlap]

/-- C4: the candidate start and clamp of `_find_optimal_position` are
`x = bbox.x0`, `y = pageHeight - bbox.y1 - textHeight - 5`, clamped to
`max 5 (min x (pageWidth - textWidth - 5))` and
`max 5 (min y (pageHeight - textHeight - 5))`; whenever this clamped
candidate overlaps no already-placed rectangle, the function returns
exactly it. -/
theorem c4_clamped_start_returned (fuel : ℕ) (bbox : Bbox) (tw th : ℚ) (used : List PRect)
    (pw ph : ℚ)
    (h : check_overlap ⟨max 5 (min bbox.x0 (pw - tw - 5)),
        max 5 (min (ph - bbox.y1 - th - 5) (ph - th - 5)), tw, th⟩ used = false) :
    find_optimal_position fuel bbox tw th used pw ph =
      some (max 5 (min bbox.x0 (pw - tw - 5)),
        max 5 (min (ph - bbox.y1 - th - 5) (ph - th - 5))) := by
  cases fuel <;> simp [find_optimal_position, find_pos_aux, h]

/-- Witness for C4: bbox (10, 700, 60, 720), text 42x21, page 612x792,
nothing placed yet: the clamped start is overlap-free and the returned
position is exactly (10, 46) = (bbox.x0, 792 - 720 - 21 - 5). -/
theorem c4_clamped_start_returned_witness :
    check_overlap ⟨max 5 (min 10 (612 - 42 - 5)),
        max 5 (min (792 - 720 - 21 - 5) (792 - 21 - 5)), 42, 21⟩ [] = false ∧
      find_optimal_position 0 ⟨10, 700, 60, 720⟩ 42 21 [] 612 792 = some (10, 46) := by
  have h : check_overlap ⟨max 5 (min 10 (612 - 42 - 5)),
      max 5 (min (792 - 720 - 21 - 5) (792 - 21 - 5)), 42, 21⟩ [] = false := by
    simp [check_overlap]
  refine ⟨h, ?_⟩
  have h2 := c4_clamped_start_returned 0 ⟨10, 700, 60, 720⟩ 42 21 [] 612 792 h
  rw [h2]
  norm_num

/-- C5 counterexample: at candidate (70, 10) with a 10x10 text on a
100x100 page (one overlapping rectangle placed), the code's loop wraps
the candidate to x = 5 — because the advanced x = 90 fails the source's
check `x + text_width > page_width - 5` (90 + 10 > 95) — while the
claim's literal condition "the advanced x would exceed pageWidth - 5"
(90 > 95) is false, so the claim's step keeps x = 90: the claim, as
stated, mispredicts the loop at this input. -/
theorem c5_advanced_x_condition_counterexample :
    find_pos_aux 10 10 100 100 [⟨65, 5, 20, 20⟩] 1 70 10 = some (5, 85) ∧
      loop_step_spec 10 10 100 100 70 10 = (90, 85) ∧
      ((90 : ℚ), (85 : ℚ)) ≠ ((5 : ℚ), (85 : ℚ)) := by
  refine ⟨?_, ?_, ?_⟩
  · norm_num [find_pos_aux, check_overlap, rects_overlap]
  · norm_num [loop_step_spec]
  · norm_num [Prod.ext_iff]

/-- C5 (amended): each iteration of the overlap-resolution loop, taken
while the candidate overlaps some placed rectangle, moves the candidate
by `textHeight + 5` (decreasing the canvas y); when the new y drops
below the bottom margin (y < 5), y is reset to the top value
`pageHeight - textHeight - 5` and x advances by `textWidth + 10`; and
when the advanced x plus `textWidth` would exceed `pageWidth - 5`
(i.e. the advanced rectangle would cross the right margin), x is reset
to the left margin 5 and the search continues from the top. -/
theorem c5_loop_step_behaviour (tw th pw ph x y : ℚ) (used : List PRect) (n : ℕ) :
    loop_step tw th pw ph x y =
      (if y - (th + 5) < 5 then
        ((if x + tw + 10 + tw > pw - 5 then (5 : ℚ) else x + tw + 10), ph - th - 5)
      else (x, y - (th + 5))) ∧
    (check_overlap ⟨x, y, tw, th⟩ used = true →
      find_pos_aux tw th pw ph used (n + 1) x y =
        find_pos_aux tw th pw ph used n (loop_step tw th pw ph x y).1
          (loop_step tw th pw ph x y).2) := by
  constructor
  · simp only [loop_step]
    split
    · split <;> rfl
    · rfl
  · intro hc
    by_cases hy : y - (th + 5) < 5
    · by_cases hx : x + tw + 10 + tw > pw - 5
      · simp [find_pos_aux, hc, loop_step, hy, hx]
      · simp [find_pos_aux, hc, loop_step, hy, hx]
    · simp [find_pos_aux, hc, loop_step, hy]

/-- Witness for C5 (amended): at the overlapping candidate (70, 10) one
loop unfolding equals one application of the step function. -/
theorem c5_loop_step_behaviour_witness :
    check_overlap ⟨70, 10, 10, 10⟩ [⟨65, 5, 20, 20⟩] = true ∧
      find_pos_aux 10 10 100 100 [⟨65, 5, 20, 20⟩] 1 70 10 =
        find_pos_aux 10 10 100 100 [⟨65, 5, 20, 20⟩] 0
          (loop_step 10 10 100 100 70 10).1 (loop_step 10 10 100 100 70 10).2 := by
  have hc : check_overlap ⟨70, 10, 10, 10⟩ [⟨65, 5, 20, 20⟩] = true := by
    norm_num [check_overlap, rects_overlap]
  exact ⟨hc, (c5_loop_step_behaviour 10 10 100 100 70 10 [⟨65, 5, 20, 20⟩] 0).2 hc⟩

/-- C6: a block passes `_should_process_block` iff its stripped text has
length at least 3 and is not composed entirely of digits; in particular
a block with text "12" is excluded, "ab" is excluded and "abc" is
included. -/
theorem c6_filter_characterisation :
    (∀ s : String, should_process_block (some s) = true ↔
      (3 ≤ (py_strip s).length ∧ ¬ ((py_strip s).data.all Char.isDigit = true))) ∧
    should_process_block (some (r"12")) = false ∧
    should_process_block (some (r"ab")) = false ∧
    should_process_block (some (r"abc")) = true := by
  refine ⟨fun s => ?_, by decide, by decide, by decide⟩
  by_cases hs : s = (r"")
  · subst hs
    decide
  · simp only [should_process_block, if_neg hs]
    constructor
    · intro h
      cases hcond : (decide ((py_strip s).length < 3) || py_isdigit (py_strip s)) with
      | true =>
        rw [hcond] at h
        simp at h
      | false =>
        rw [Bool.or_eq_false_iff] at hcond
        obtain ⟨h1, h2⟩ := hcond
        have hlen : ¬ (py_strip s).length < 3 := of_decide_eq_false h1
        refine ⟨by omega, fun hall => ?_⟩
        have hne : py_strip s ≠ (r"") := by
          intro he
          rw [he] at hlen
          exact hlen (by decide)
        have hdig : py_isdigit (py_strip s) = true := by
          simp only [py_isdigit, Bool.and_eq_true, bne_iff_ne]
          exact ⟨hne, hall⟩
        rw [hdig] at h2
        exact Bool.noConfusion h2
    · rintro ⟨h3, hdig⟩
      have h1 : decide ((py_strip s).length < 3) = false := decide_eq_false (by omega)
      have h2 : py_isdigit (py_strip s) = false := by
        cases hpy : py_isdigit (py_strip s) with
        | false => rfl
        | true =>
          rw [py_isdigit, Bool.and_eq_true] at hpy
          exact absurd hpy.2 hdig
      rw [h1, h2]
      simp

/-- Witness for C6: applying the characterisation to the string "abc"
(stripped length 3, not all digits, accepted by the filter). -/
theorem c6_filter_characterisation_witness :
    should_process_block (some (r"abc")) = true ↔
      (3 ≤ (py_strip (r"abc")).length ∧
        ¬ ((py_strip (r"abc")).data.all Char.isDigit = true)) :=
  c6_filter_characterisation.1 (r"abc")

/-- C7: eligible blocks are batched in groups of `batch_size = 10`
preserving the processed (sorted, filtered) order — flattening the
translator calls gives back exactly the eligible texts — the final
partial batch is flushed, and a page with exactly 25 eligible blocks
produces exactly 3 translator calls of sizes 10, 10 and 5 in that
order. -/
theorem c7_batches_of_ten (page_content : List SrcBlock) :
    (translator_calls page_content).flatten = eligible_texts page_content ∧
      ((eligible_texts page_content).length = 25 →
        (translator_calls page_content).map List.length = [10, 10, 5]) := by
  constructor
  · simpa using batch_loop_flatten (eligible_texts page_content) []
  · intro h
    rw [translator_calls, batch_loop_sizes, h]
    decide

/-- Witness for C7: 25 identical eligible blocks yield batch sizes
[10, 10, 5]. -/
theorem c7_batches_of_ten_witness :
    (eligible_texts c7_content).length = 25 ∧
      (translator_calls c7_content).map List.length = [10, 10, 5] :=
  ⟨by decide, (c7_batches_of_ten c7_content).2 (by decide)⟩

/-- C8: `process_text` (the shaping operation) is total — it never
raises, whatever the external reshaper and bidi steps do on the input:
when both steps succeed it returns the bidi display form of the
reshaped text, on any failure of either step it returns the original
input unchanged, and when the external steps map the empty string to
itself (as the real libraries do), `process_text` of `""` is `""`. -/
theorem c8_shaping_never_raises (reshape gd : String → Option String) (t : String) :
    (process_text reshape gd t = t ∨
      ∃ r, reshape t = some r ∧ gd r = some (process_text reshape gd t)) ∧
    ((reshape t = none ∨ ∃ r, reshape t = some r ∧ gd r = none) →
      process_text reshape gd t = t) ∧
    (reshape (r"") = some (r"") → gd (r"") = some (r"") →
      process_text reshape gd (r"") = (r"")) := by
  refine ⟨?_, ?_, ?_⟩
  · cases hr : reshape t with
    | none => exact Or.inl (by simp [process_text, hr])
    | some r =>
      cases hg : gd r with
      | none => exact Or.inl (by simp [process_text, hr, hg])
      | some b =>
        refine Or.inr ⟨r, rfl, ?_⟩
        have hb : process_text reshape gd t = b := by simp [process_text, hr, hg]
        rw [hb]
        exact hg
  · rintro (hr | ⟨r, hr, hg⟩)
    · simp [process_text, hr]
    · simp [process_text, hr, hg]
  · intro h1 h2
    simp [process_text, h1, h2]

/-- Witness for C8: with a stub shaper that succeeds only on the empty
string, a failing input comes back unchanged and the empty string maps
to itself. -/
theorem c8_shaping_never_raises_witness :
    process_text shape_id shape_id (r"x") = (r"x") ∧
      process_text shape_id shape_id (r"") = (r"") := by
  constructor
  · exact (c8_shaping_never_raises shape_id shape_id (r"x")).2.1 (Or.inl (by decide))
  · exact (c8_shaping_never_raises shape_id shape_id (r"")).2.2 (by decide) (by decide)

/-- C9: evaluation of the failing input.  When `float(page_size[0])`
raises (a non-numeric page-size entry), `create_translated_overlay`
does not return an empty page surface: its `except` handler reads the
never-assigned locals `width`/`height` and itself raises `NameError`,
so the renderer raises instead of returning a page — contradicting the
claim, which the surrounding handler's own code shows to be the
intent. -/
theorem c9_handler_raises_on_bad_page_size :
    create_translated_overlay (fun s => some s) (fun s => some s) 0 [] PyVal.nonNumeric
      (PyVal.num 792) true true = some (Except.error PyErr.nameError) := rfl

/-- C10: `_process_batch` pairs translations with source blocks
positionally through `zip`, silently dropping every source block beyond
the length of the translation list — the result is unchanged when the
blocks are truncated to that length — and at most
`min(len(translations), len(blocks))` translated blocks are produced. -/
theorem c10_batch_zip_truncates (translations : List String) (blocks : List SrcBlock)
    (page_num : ℕ) :
    process_batch translations blocks page_num =
        process_batch translations (blocks.take translations.length) page_num ∧
      (process_batch translations blocks page_num).length ≤
        min translations.length blocks.length := by
  constructor
  · simp only [process_batch]
    rw [← zip_eq_zip_take]
  · calc (process_batch translations blocks page_num).length
        ≤ (translations.zip blocks).length := List.length_filterMap_le _ _
      _ = min translations.length blocks.length := List.length_zip _ _
